import Mathlib

/-!
Shallow embedding of the forecast-ensemble and recommendation core of the
stock_closing_price_prediction_web_app repository (src/prediction.py and the
prediction route of src/api.py).

Modelling conventions:
* A price series (pandas DataFrame indexed by date) is a `List (ℤ × ℚ)` of
  (date, close) rows; dates are day numbers (pandas Timestamps at daily
  frequency), prices are rationals standing for the floats of the source.
* A per-model forecast DataFrame is a `ForecastFrame` (dates, predicted_price).
* A fallible computation that the source wraps in try/except returning `None`
  is an `Option`.
* The numerical fitting routines of the external libraries (ARIMA fit/forecast,
  the torch LSTM training and rollout, Prophet fit/predict) are opaque
  floating-point collaborators: each is passed in as a parameter — `none` when
  the library call raises (caught by the except-block of the source), `some f` with
  `f i` the i-th output value when it succeeds.  Everything the repository
  itself computes (data preparation, date construction, training-loop batch
  arithmetic, ensemble averaging, recommendation logic) is embedded directly.
-/

namespace StockApp

/-- A forecast DataFrame: column of dates and column of predicted prices,
as built by the pd.DataFrame constructor from forecast_dates and the
predicted prices. -/
structure ForecastFrame where
  dates : List ℤ
  predicted_price : List ℚ
deriving Repr, DecidableEq

/-- Mean of a pandas Series of rationals: sum divided by length.
(On an empty slice pandas gives NaN; every comparison against NaN is false,
which the thresholds below also give for the rational 0, so the embedded
classification coincides with the source on the lengths our theorems use.) -/
def seriesMean (l : List ℚ) : ℚ := l.sum / l.length

/-- Insertion step of the ascending-by-date sort used by
`self.stock_data.copy().sort_index()`. -/
def insert_by_date (x : ℤ × ℚ) : List (ℤ × ℚ) → List (ℤ × ℚ)
  | [] => [x]
  | y :: ys => if x.1 ≤ y.1 then x :: y :: ys else y :: insert_by_date x ys

/-- Ascending-by-date sort of the rows (`sort_index`); dates are unique per
the data model, so stability is irrelevant. -/
def sort_index : List (ℤ × ℚ) → List (ℤ × ℚ)
  | [] => []
  | x :: xs => insert_by_date x (sort_index xs)

/-- StockPredictor.prepare_data: `None`/empty input gives `None` (the source
also renders a UI error message), otherwise the rows sorted oldest-first. -/
def prepare_data (stock_data : Option (List (ℤ × ℚ))) : Option (List (ℤ × ℚ)) :=
  match stock_data with
  | none => none
  | some rows => if rows.isEmpty then none else some (sort_index rows)

/-- `pd.date_range(start=last_date + timedelta(days=1), periods=n)`: the `n`
consecutive calendar days following `last_date`. -/
def forecast_dates (last_date : ℤ) (n : ℕ) : List ℤ :=
  (List.range n).map (fun (i : ℕ) => last_date + 1 + (i : ℤ))

/-- StockPredictor.predict_with_arima.  `fitted` stands for the external
`ARIMA(closing_prices, order=(1,1,1)).fit().forecast(steps=n)` call: `none`
when it raises (the except-block returns `None`), otherwise `fitted i` is the
i-th of its `n` forecast values. -/
def predict_with_arima (stock_data : Option (List (ℤ × ℚ)))
    (fitted : Option (ℕ → ℚ)) (forecast_days : ℕ) : Option ForecastFrame :=
  match prepare_data stock_data with
  | none => none
  | some df =>
    match fitted with
    | none => none
    | some f =>
      let last_date := (df.map Prod.fst).getLastD 0
      some ⟨forecast_dates last_date forecast_days,
            (List.range forecast_days).map f⟩

/-- Sliding-window length of the sequence model (`look_back = 60`). -/
def look_back : ℕ := 60

/-- Mini-batch size of the training loop of the sequence model (`batch_size = 32`). -/
def batch_size : ℕ := 32

/-- StockPredictor.predict_with_lstm, keeping the control
flow and batch arithmetic of the repository; `net_out i` stands for the i-th
inverse-scaled output of the autoregressive rollout of the trained network
(opaque float math).

Two failure points of the source are embedded:
* `range(look_back, len)` yields no training pairs when `len ≤ look_back`;
  `x_train` is then an empty array of shape `(0,)` and
  `np.reshape(x_train, (x_train.shape[0], x_train.shape[1], 1))` raises an
  IndexError, caught by the except-block.
* `n_batches = len(x_train_tensor) // batch_size` can be 0, in which case
  `avg_loss = epoch_loss / n_batches` raises ZeroDivisionError at the end of
  the first epoch, caught by the except-block. -/
def predict_with_lstm (stock_data : Option (List (ℤ × ℚ)))
    (net_out : ℕ → ℚ) (forecast_days : ℕ) : Option ForecastFrame :=
  match prepare_data stock_data with
  | none => none
  | some df =>
    let num_pairs := df.length - look_back
    if num_pairs = 0 then none
    else
      let n_batches := num_pairs / batch_size
      if n_batches = 0 then none
      else
        let last_date := (df.map Prod.fst).getLastD 0
        some ⟨forecast_dates last_date forecast_days,
              (List.range forecast_days).map net_out⟩

/-- The Prophet `make_future_dataframe(periods=n)` call with history included: the
historical dates followed by the `n` consecutive days after the last one. -/
def make_future_dataframe (hist_dates : List ℤ) (n : ℕ) : List ℤ :=
  hist_dates ++ forecast_dates (hist_dates.getLastD 0) n

/-- StockPredictor.predict_with_prophet.  `yhat` stands for the external
`Prophet(daily_seasonality=True)` fit/predict call over the future dataframe:
`none` when it raises, otherwise `yhat i` is the fitted value at row `i` of
the future dataframe.  The source keeps `.tail(forecast_days)` of the
prediction. -/
def predict_with_prophet (stock_data : Option (List (ℤ × ℚ)))
    (yhat : Option (ℕ → ℚ)) (forecast_days : ℕ) : Option ForecastFrame :=
  match prepare_data stock_data with
  | none => none
  | some df =>
    match yhat with
    | none => none
    | some y =>
      let future := make_future_dataframe (df.map Prod.fst) forecast_days
      some ⟨future.drop (future.length - forecast_days),
            ((List.range future.length).map y).drop (future.length - forecast_days)⟩

/-- The ensemble table of StockPredictor.ensemble_prediction: the date index
(taken from the first surviving model), one column per surviving model, and
the derived `ensemble` column. -/
structure EnsembleTable where
  dates : List ℤ
  modelCols : List (String × List ℚ)
  ensembleCol : List ℚ
deriving Repr, DecidableEq

/-- Lines 276–293 of StockPredictor.ensemble_prediction: keep the models whose
prediction is not `None`; if none survive, fail; otherwise index by the first
survivor, add the predicted_price column of each survivor, and form the
`ensemble` column as the row-wise mean of the model columns.  Surviving
models share the date index by construction (§4.5 of the spec), so positional
indexing embeds the pandas index alignment; `getD _ 0` is only ever used in
range. -/
def ensemble_combine (predictions : List (String × Option ForecastFrame)) :
    Option EnsembleTable :=
  let valid_predictions :=
    predictions.filterMap (fun p => p.2.map (fun f => (p.1, f)))
  match valid_predictions with
  | [] => none
  | (_, f₀) :: _ =>
    let dates := f₀.dates
    let cols := valid_predictions.map (fun v => (v.1, v.2.predicted_price))
    let ensemble :=
      (List.range dates.length).map
        (fun i => seriesMean (cols.map (fun c => c.2.getD i 0)))
    some ⟨dates, cols, ensemble⟩

/-- StockPredictor.ensemble_prediction: run the three models of `self.models`
(each isolated by its own try/except) and combine the survivors. -/
def ensemble_prediction (stock_data : Option (List (ℤ × ℚ)))
    (arima_fit : Option (ℕ → ℚ)) (lstm_net : ℕ → ℚ) (prophet_fit : Option (ℕ → ℚ))
    (forecast_days : ℕ) : Option EnsembleTable :=
  ensemble_combine
    [("ARIMA", predict_with_arima stock_data arima_fit forecast_days),
     ("LSTM", predict_with_lstm stock_data lstm_net forecast_days),
     ("Prophet", predict_with_prophet stock_data prophet_fit forecast_days)]

/-- The structured content of the explanation string built by
StockPredictor.generate_recommendation: which branch produced it, which
horizon-return percentages its text interpolates, the per-model
bullish/bearish signals, and the confidence line.  `insufficient` is the
early "Insufficient data for recommendation." return; `failure` is the
return of the except-block ("Error in recommendation generation."). -/
inductive Explanation where
  | insufficient : Explanation
  | failure : Explanation
  | report (reportedShort reportedMedium reportedLong : Option ℚ)
      (modelSignals : List (String × Bool)) (confidence : String) : Explanation
deriving Repr, DecidableEq

/-- The short-horizon return percentage interpolated into the rationale, if
the main path was reached. -/
def Explanation.reportedShort : Explanation → Option ℚ
  | .report s _ _ _ _ => s
  | _ => none

/-- The medium-horizon return percentage interpolated into the rationale, if
the main path was reached. -/
def Explanation.reportedMedium : Explanation → Option ℚ
  | .report _ m _ _ _ => m
  | _ => none

/-- The long-horizon return percentage interpolated into the rationale, if
present. -/
def Explanation.reportedLong : Explanation → Option ℚ
  | .report _ _ l _ _ => l
  | _ => none

/-- The per-model signal list of the rationale (`True` = Bullish). -/
def Explanation.modelSignals : Explanation → List (String × Bool)
  | .report _ _ _ sig _ => sig
  | _ => []

/-- The confidence word appended to the rationale, if the main path was
reached. -/
def Explanation.confidenceLevel : Explanation → Option String
  | .report _ _ _ _ c => some c
  | _ => none

/-- StockPredictor.generate_recommendation.  Direct embedding of the source:
the `None`-input guard, the three horizon predictions over the `ensemble`
column (`iloc[:7]`, `iloc[7:14]`, `iloc[-1]`), the percentage returns against
`current_price`, the first-match decision ladder, and the per-model
bullish/bearish signals from the last row of the table.  On an empty ensemble
column, `iloc[-1]` raises IndexError and the except-block returns the `hold`
failure default, embedded as the `isEmpty` branch. -/
def generate_recommendation (ensemble_pred : Option EnsembleTable)
    (current_price : Option ℚ) : String × Explanation :=
  match ensemble_pred, current_price with
  | none, _ => ("hold", Explanation.insufficient)
  | some _, none => ("hold", Explanation.insufficient)
  | some t, some last_price =>
    if t.ensembleCol.isEmpty then ("hold", Explanation.failure)
    else
      let short_term_pred := seriesMean (t.ensembleCol.take 7)
      let medium_term_pred := seriesMean ((t.ensembleCol.drop 7).take 7)
      let long_term_pred := t.ensembleCol.getLastD 0
      let short_term_return := (short_term_pred - last_price) / last_price * 100
      let medium_term_return := (medium_term_pred - last_price) / last_price * 100
      let long_term_return := (long_term_pred - last_price) / last_price * 100
      let model_signals :=
        t.modelCols.map (fun c => (c.1, decide (c.2.getLastD 0 > last_price)))
      if short_term_return > 5 ∧ medium_term_return > 3 ∧ long_term_return > 0 then
        ("buy", Explanation.report (some short_term_return) (some medium_term_return)
          (some long_term_return) model_signals "high")
      else if short_term_return > 3 ∧ medium_term_return > 0 then
        ("buy", Explanation.report (some short_term_return) (some medium_term_return)
          none model_signals "moderate")
      else if short_term_return < -5 ∧ medium_term_return < -3 ∧ long_term_return < 0 then
        ("sell", Explanation.report (some short_term_return) (some medium_term_return)
          (some long_term_return) model_signals "high")
      else if short_term_return < -3 ∧ medium_term_return < 0 then
        ("sell", Explanation.report (some short_term_return) (some medium_term_return)
          none model_signals "moderate")
      else
        ("hold", Explanation.report (some short_term_return) (some medium_term_return)
          (some long_term_return) model_signals "moderate")

/-- The recommendation classification table exactly as the spec words it
(§4.6 step 2, first matching rule wins); refinement target for the
decision-ladder claim. -/
def recommendation_spec (short medium long : ℚ) : String × String :=
  if short > 5 ∧ medium > 3 ∧ long > 0 then ("buy", "high")
  else if short > 3 ∧ medium > 0 then ("buy", "moderate")
  else if short < -5 ∧ medium < -3 ∧ long < 0 then ("sell", "high")
  else if short < -3 ∧ medium < 0 then ("sell", "moderate")
  else ("hold", "moderate")

/-- The prediction branch of the `/api/prediction` route
(src/api.py, predict_stock_price) downstream of data retrieval: a `None`
ensemble becomes HTTP 500 "Failed to generate predictions"; otherwise the
recommendation is generated and returned. -/
def predict_stock_price (ensemble_predictions : Option EnsembleTable)
    (current_price : ℚ) : Except (ℕ × String) (String × Explanation) :=
  match ensemble_predictions with
  | none => Except.error (500, "Failed to generate predictions")
  | some t => Except.ok (generate_recommendation (some t) (some current_price))


/-! Concrete inputs used by the closed witnesses and counterexamples below. -/

/-- A 15-day ensemble table whose column averages 106 over days 1–7, 104 over
days 8–14, and ends at 101: against a current price of 100 the horizon
returns are 6%, 4% and 1%. -/
def tblBuyHigh : EnsembleTable :=
  ⟨(List.range 15).map (fun (i : ℕ) => (i : ℤ)),
   [("ARIMA", List.replicate 15 (106 : ℚ)), ("Prophet", List.replicate 15 (95 : ℚ))],
   List.replicate 7 (106 : ℚ) ++ List.replicate 7 (104 : ℚ) ++ [101]⟩

/-- A 15-day ensemble table giving horizon returns 4%, 1%, 1% against a
current price of 100: the moderate-buy branch. -/
def tblModerateBuy : EnsembleTable :=
  ⟨(List.range 15).map (fun (i : ℕ) => (i : ℤ)),
   [("ARIMA", [104, 104, 104, 104, 104, 104, 104, 101, 101, 101, 101, 101, 101, 101, 101])],
   [104, 104, 104, 104, 104, 104, 104, 101, 101, 101, 101, 101, 101, 101, 101]⟩

/-- A 15-day ensemble table constant at 10. -/
def tblAllTen : EnsembleTable :=
  ⟨(List.range 15).map (fun (i : ℕ) => (i : ℤ)),
   [("ARIMA", [10, 10, 10, 10, 10, 10, 10, 10, 10, 10, 10, 10, 10, 10, 10])],
   [10, 10, 10, 10, 10, 10, 10, 10, 10, 10, 10, 10, 10, 10, 10]⟩

/-- An ensemble table with an empty ensemble column. -/
def tblEmptyCol : EnsembleTable := ⟨[], [], []⟩

/-- The two-column ensemble table built from `frameA` alone. -/
def tblC2 : EnsembleTable := ⟨[10, 11], [("ARIMA", [1, 2])], [1, 2]⟩

/-- A two-day forecast frame. -/
def frameA : ForecastFrame := ⟨[10, 11], [1, 2]⟩

/-- A second two-day forecast frame on the same dates. -/
def frameP : ForecastFrame := ⟨[10, 11], [3, 4]⟩

/-- A two-row price series, already in ascending date order. -/
def rowsTwo : List (ℤ × ℚ) := [(0, 5), (1, 6)]

/-- A five-row price series. -/
def rowsFive : List (ℤ × ℚ) := (List.range 5).map (fun (i : ℕ) => ((i : ℤ), (5 : ℚ)))

/-- A 92-row price series: the minimum length the sequence model accepts. -/
def rowsNinetyTwo : List (ℤ × ℚ) :=
  (List.range 92).map (fun (i : ℕ) => ((i : ℤ), (5 : ℚ)))

/-- A constant stand-in for the opaque numerical model outputs. -/
def zeroFun : ℕ → ℚ := fun _ => 0

/-! Helper lemmas shared by the claim theorems. -/

/-- Inserting a row grows the sorted list by one. -/
theorem length_insert_by_date (x : ℤ × ℚ) (l : List (ℤ × ℚ)) :
    (insert_by_date x l).length = l.length + 1 := by
  induction l with
  | nil => rfl
  | cons y ys ih =>
    simp only [insert_by_date]
    split
    · simp
    · simp [ih]

/-- Sorting preserves the number of rows. -/
theorem length_sort_index (l : List (ℤ × ℚ)) : (sort_index l).length = l.length := by
  induction l with
  | nil => rfl
  | cons x xs ih => simp [sort_index, length_insert_by_date, ih]

/-- An ensemble column of length at least 14 is not empty. -/
theorem isEmpty_false_of_len {t : EnsembleTable} (h : 14 ≤ t.ensembleCol.length) :
    t.ensembleCol.isEmpty = false := by
  cases hc : t.ensembleCol with
  | nil => rw [hc] at h; simp at h
  | cons a l => rfl

/-- The i-th forecast date is the last historical date plus `i + 1` days. -/
theorem forecast_dates_getD (last : ℤ) (n i : ℕ) (h : i < n) :
    (forecast_dates last n).getD i 0 = last + 1 + i := by
  have hl : i < (forecast_dates last n).length := by
    simp only [forecast_dates, List.length_map, List.length_range]
    exact h
  rw [List.getD_eq_getElem _ _ hl]
  simp only [forecast_dates, List.getElem_map, List.getElem_range]

/-- There are exactly `n` forecast dates. -/
theorem length_forecast_dates (last : ℤ) (n : ℕ) : (forecast_dates last n).length = n := by
  simp only [forecast_dates, List.length_map, List.length_range]

/-! The claims. -/

/-- C1: for every ensemble forecast (at least 14 entries, so that all three
horizons exist) and every positive current price, generate_recommendation
classifies exactly as the first-matching rule table of the spec over the
three horizon returns (short = mean of entries 0..6, medium = mean of entries
7..13, long = last entry, each as percentage change from current_price); in
particular returns (6, 4, 1) give buy/high, (-6, -4, -1) give sell/high, and
(1, 1, 1) give hold. -/
theorem C1_recommendation_classification (t : EnsembleTable) (p : ℚ)
    (_hp : 0 < p) (hlen : 14 ≤ t.ensembleCol.length) :
    (generate_recommendation (some t) (some p)).1 =
      (recommendation_spec ((seriesMean (t.ensembleCol.take 7) - p) / p * 100)
        ((seriesMean ((t.ensembleCol.drop 7).take 7) - p) / p * 100)
        ((t.ensembleCol.getLastD 0 - p) / p * 100)).1 ∧
    (generate_recommendation (some t) (some p)).2.confidenceLevel =
      some (recommendation_spec ((seriesMean (t.ensembleCol.take 7) - p) / p * 100)
        ((seriesMean ((t.ensembleCol.drop 7).take 7) - p) / p * 100)
        ((t.ensembleCol.getLastD 0 - p) / p * 100)).2 ∧
    recommendation_spec 6 4 1 = ("buy", "high") ∧
    recommendation_spec (-6) (-4) (-1) = ("sell", "high") ∧
    (recommendation_spec 1 1 1).1 = "hold" := by
  have hne := isEmpty_false_of_len hlen
  refine ⟨?_, ?_, rfl, rfl, rfl⟩ <;>
  · simp only [generate_recommendation, recommendation_spec, hne, Bool.false_eq_true,
      if_false]
    split_ifs <;> simp [Explanation.confidenceLevel]

/-- C1 witness: the rule table applied to the concrete buy/high table at
price 100. -/
theorem C1_recommendation_classification_witness :
    (0 : ℚ) < 100 ∧ 14 ≤ tblBuyHigh.ensembleCol.length ∧
    ((generate_recommendation (some tblBuyHigh) (some 100)).1 =
      (recommendation_spec ((seriesMean (tblBuyHigh.ensembleCol.take 7) - 100) / 100 * 100)
        ((seriesMean ((tblBuyHigh.ensembleCol.drop 7).take 7) - 100) / 100 * 100)
        ((tblBuyHigh.ensembleCol.getLastD 0 - 100) / 100 * 100)).1 ∧
    (generate_recommendation (some tblBuyHigh) (some 100)).2.confidenceLevel =
      some (recommendation_spec ((seriesMean (tblBuyHigh.ensembleCol.take 7) - 100) / 100 * 100)
        ((seriesMean ((tblBuyHigh.ensembleCol.drop 7).take 7) - 100) / 100 * 100)
        ((tblBuyHigh.ensembleCol.getLastD 0 - 100) / 100 * 100)).2 ∧
    recommendation_spec 6 4 1 = ("buy", "high") ∧
    recommendation_spec (-6) (-4) (-1) = ("sell", "high") ∧
    (recommendation_spec 1 1 1).1 = "hold") :=
  ⟨by decide, by decide, C1_recommendation_classification tblBuyHigh 100 (by decide) (by decide)⟩

/-- C2: whenever the surviving model forecasts share the date index `d`, the
combined table is indexed by `d`, its model columns are exactly the surviving
predicted-price columns, and its ensemble column at every position is the
arithmetic mean (sum over number of model columns) of the model columns
there. -/
theorem C2_ensemble_column_is_mean (predictions : List (String × Option ForecastFrame))
    (d : List ℤ) (t : EnsembleTable)
    (hshare : ∀ q ∈ predictions, ∀ f, q.2 = some f →
      f.dates = d ∧ f.predicted_price.length = d.length)
    (ht : ensemble_combine predictions = some t) :
    t.dates = d ∧
    t.modelCols = predictions.filterMap
      (fun q => q.2.map (fun f => (q.1, f.predicted_price))) ∧
    t.ensembleCol.length = t.dates.length ∧
    (∀ i, i < t.dates.length →
      t.ensembleCol.getD i 0 =
        (t.modelCols.map (fun c => c.2.getD i 0)).sum / (t.modelCols.length : ℚ)) := by
  simp only [ensemble_combine] at ht
  cases hv : predictions.filterMap (fun q => q.2.map (fun f => (q.1, f))) with
  | nil => rw [hv] at ht; simp at ht
  | cons v vs =>
    rw [hv] at ht
    obtain ⟨n₀, f₀⟩ := v
    simp only [Option.some.injEq] at ht
    subst ht
    have hd : f₀.dates = d := by
      have hmem : (n₀, f₀) ∈ predictions.filterMap (fun q => q.2.map (fun f => (q.1, f))) := by
        rw [hv]; exact List.mem_cons_self _ _
      rw [List.mem_filterMap] at hmem
      obtain ⟨q, hq, hqe⟩ := hmem
      rw [Option.map_eq_some'] at hqe
      obtain ⟨f, hf, hfe⟩ := hqe
      have := (hshare q hq f hf).1
      cases hfe
      exact this
    refine ⟨hd, ?_, ?_, ?_⟩
    · show ((n₀, f₀) :: vs).map (fun v => (v.1, v.2.predicted_price)) = _
      rw [← hv, List.map_filterMap]
      congr 1
      funext q
      rw [Option.map_map]
      rfl
    · simp
    · intro i hi
      simp only at hi ⊢
      have hlt : i < ((List.range f₀.dates.length).map
          (fun i => seriesMean ((((n₀, f₀) :: vs).map
            (fun v => (v.1, v.2.predicted_price))).map (fun c => c.2.getD i 0)))).length := by
        simpa using hi
      rw [List.getD_eq_getElem _ _ hlt, List.getElem_map, List.getElem_range]
      simp [seriesMean]

/-- C2 witness: one surviving model on the index [10, 11]. -/
theorem C2_ensemble_column_is_mean_witness :
    (∀ q ∈ [("ARIMA", some frameA), ("LSTM", (none : Option ForecastFrame))],
      ∀ f, q.2 = some f →
        f.dates = [10, 11] ∧ f.predicted_price.length = ([10, 11] : List ℤ).length) ∧
    ensemble_combine [("ARIMA", some frameA), ("LSTM", none)] = some tblC2 ∧
    (tblC2.dates = [10, 11] ∧
     tblC2.modelCols = [("ARIMA", some frameA), ("LSTM", (none : Option ForecastFrame))].filterMap
       (fun q => q.2.map (fun f => (q.1, f.predicted_price))) ∧
     tblC2.ensembleCol.length = tblC2.dates.length ∧
     (∀ i, i < tblC2.dates.length →
       tblC2.ensembleCol.getD i 0 =
         (tblC2.modelCols.map (fun c => c.2.getD i 0)).sum / (tblC2.modelCols.length : ℚ))) := by
  have hshare : ∀ q ∈ [("ARIMA", some frameA), ("LSTM", (none : Option ForecastFrame))],
      ∀ f, q.2 = some f →
        f.dates = [10, 11] ∧ f.predicted_price.length = ([10, 11] : List ℤ).length := by
    intro q hq f hf
    simp only [List.mem_cons, List.not_mem_nil, or_false] at hq
    rcases hq with rfl | rfl
    · injection hf with h
      subst h
      exact ⟨rfl, rfl⟩
    · exact absurd hf (by simp)
  have ht : ensemble_combine [("ARIMA", some frameA), ("LSTM", none)] = some tblC2 := by
    simp [ensemble_combine, seriesMean, frameA, tblC2, List.range_succ]
  exact ⟨hshare, ht, C2_ensemble_column_is_mean _ [10, 11] tblC2 hshare ht⟩

/-- C3: when every model returns no forecast, the combiner fails (returns no
table, hence no ensemble value and no recommendation), and the prediction
route surfaces HTTP 500 "Failed to generate predictions", which is distinct
from every successful hold response. -/
theorem C3_all_models_failed_no_recommendation
    (predictions : List (String × Option ForecastFrame)) (p : ℚ)
    (h : ∀ q ∈ predictions, q.2 = none) :
    ensemble_combine predictions = none ∧
    predict_stock_price (ensemble_combine predictions) p =
      Except.error (500, "Failed to generate predictions") ∧
    ∀ e : Explanation,
      predict_stock_price (ensemble_combine predictions) p ≠ Except.ok ("hold", e) := by
  have hnil : predictions.filterMap (fun q => q.2.map (fun f => (q.1, f))) = [] :=
    List.filterMap_eq_nil_iff.mpr (fun q hq => by rw [h q hq]; rfl)
  have hc : ensemble_combine predictions = none := by
    simp only [ensemble_combine]
    rw [hnil]
  refine ⟨hc, ?_, ?_⟩
  · rw [hc]; rfl
  · intro e
    rw [hc]
    simp [predict_stock_price]

/-- C3 witness: the three named models all failing. -/
theorem C3_all_models_failed_no_recommendation_witness :
    (∀ q ∈ [("ARIMA", (none : Option ForecastFrame)), ("LSTM", none), ("Prophet", none)],
      q.2 = none) ∧
    (ensemble_combine [("ARIMA", (none : Option ForecastFrame)), ("LSTM", none), ("Prophet", none)] = none ∧
     predict_stock_price (ensemble_combine
       [("ARIMA", (none : Option ForecastFrame)), ("LSTM", none), ("Prophet", none)]) 100 =
       Except.error (500, "Failed to generate predictions") ∧
     ∀ e : Explanation, predict_stock_price (ensemble_combine
       [("ARIMA", (none : Option ForecastFrame)), ("LSTM", none), ("Prophet", none)]) 100 ≠
       Except.ok ("hold", e)) := by
  have h : ∀ q ∈ [("ARIMA", (none : Option ForecastFrame)), ("LSTM", none), ("Prophet", none)],
      q.2 = none := by decide
  exact ⟨h, C3_all_models_failed_no_recommendation _ 100 h⟩

/-- C4: with exactly one of the three models failing and the other two
surviving, the combiner succeeds, the table has exactly the two surviving
model columns (each carrying the predicted prices of its survivor) besides
the ensemble column, and the prediction route still produces a
recommendation. -/
theorem C4_single_model_failure_isolated (n₁ n₂ n₃ : String)
    (o₁ o₂ o₃ : Option ForecastFrame) (p : ℚ)
    (h : (o₁ = none ∧ o₂.isSome ∧ o₃.isSome) ∨ (o₁.isSome ∧ o₂ = none ∧ o₃.isSome) ∨
      (o₁.isSome ∧ o₂.isSome ∧ o₃ = none)) :
    ∃ t, ensemble_combine [(n₁, o₁), (n₂, o₂), (n₃, o₃)] = some t ∧
      t.modelCols.length = 2 ∧
      (∀ c ∈ t.modelCols, ∃ f, (c.1, some f) ∈ [(n₁, o₁), (n₂, o₂), (n₃, o₃)] ∧
        f.predicted_price = c.2) ∧
      ∃ r, predict_stock_price (ensemble_combine [(n₁, o₁), (n₂, o₂), (n₃, o₃)]) p =
        Except.ok r := by
  rcases h with ⟨h1, h2, h3⟩ | ⟨h1, h2, h3⟩ | ⟨h1, h2, h3⟩
  · subst h1
    obtain ⟨f₂, rfl⟩ := Option.isSome_iff_exists.mp h2
    obtain ⟨f₃, rfl⟩ := Option.isSome_iff_exists.mp h3
    refine ⟨_, rfl, rfl, ?_, ⟨_, rfl⟩⟩
    intro c hc
    simp at hc
    rcases hc with rfl | rfl
    · exact ⟨f₂, by simp, rfl⟩
    · exact ⟨f₃, by simp, rfl⟩
  · subst h2
    obtain ⟨f₁, rfl⟩ := Option.isSome_iff_exists.mp h1
    obtain ⟨f₃, rfl⟩ := Option.isSome_iff_exists.mp h3
    refine ⟨_, rfl, rfl, ?_, ⟨_, rfl⟩⟩
    intro c hc
    simp at hc
    rcases hc with rfl | rfl
    · exact ⟨f₁, by simp, rfl⟩
    · exact ⟨f₃, by simp, rfl⟩
  · subst h3
    obtain ⟨f₁, rfl⟩ := Option.isSome_iff_exists.mp h1
    obtain ⟨f₂, rfl⟩ := Option.isSome_iff_exists.mp h2
    refine ⟨_, rfl, rfl, ?_, ⟨_, rfl⟩⟩
    intro c hc
    simp at hc
    rcases hc with rfl | rfl
    · exact ⟨f₁, by simp, rfl⟩
    · exact ⟨f₂, by simp, rfl⟩

/-- C4 witness: the middle model fails, the other two survive. -/
theorem C4_single_model_failure_isolated_witness :
    (((some frameA : Option ForecastFrame) = none ∧ (none : Option ForecastFrame).isSome ∧
        (some frameP : Option ForecastFrame).isSome) ∨
     ((some frameA : Option ForecastFrame).isSome ∧ (none : Option ForecastFrame) = none ∧
        (some frameP : Option ForecastFrame).isSome) ∨
     ((some frameA : Option ForecastFrame).isSome ∧ (none : Option ForecastFrame).isSome ∧
        (some frameP : Option ForecastFrame) = none)) ∧
    (∃ t, ensemble_combine [("ARIMA", some frameA), ("LSTM", none), ("Prophet", some frameP)] = some t ∧
      t.modelCols.length = 2 ∧
      (∀ c ∈ t.modelCols, ∃ f,
        (c.1, some f) ∈ [("ARIMA", some frameA), ("LSTM", none), ("Prophet", some frameP)] ∧
        f.predicted_price = c.2) ∧
      ∃ r, predict_stock_price
        (ensemble_combine [("ARIMA", some frameA), ("LSTM", none), ("Prophet", some frameP)]) 100 =
        Except.ok r) := by
  have h : ((some frameA : Option ForecastFrame) = none ∧ (none : Option ForecastFrame).isSome ∧
        (some frameP : Option ForecastFrame).isSome) ∨
      ((some frameA : Option ForecastFrame).isSome ∧ (none : Option ForecastFrame) = none ∧
        (some frameP : Option ForecastFrame).isSome) ∨
      ((some frameA : Option ForecastFrame).isSome ∧ (none : Option ForecastFrame).isSome ∧
        (some frameP : Option ForecastFrame) = none) :=
    Or.inr (Or.inl ⟨rfl, rfl, rfl⟩)
  exact ⟨h, C4_single_model_failure_isolated "ARIMA" "LSTM" "Prophet" _ _ _ 100 h⟩


/-- C5 counterexample: a negative (hence non-positive) current price is not
guarded: against price -10 the constant-10 forecast yields the label sell,
not the claimed hold default. -/
theorem C5_counterexample_negative_price_sell :
    (-10 : ℚ) < 0 ∧
    (generate_recommendation (some tblAllTen) (some (-10))).1 = "sell" ∧
    (generate_recommendation (some tblAllTen) (some (-10))).1 ≠ "hold" := by
  have h : (generate_recommendation (some tblAllTen) (some (-10))).1 = "sell" := by
    norm_num [generate_recommendation, seriesMean, tblAllTen]
  refine ⟨by norm_num, h, ?_⟩
  rw [h]
  decide

/-- C5 amended: the hold default (without raising) covers an absent ensemble
forecast, an absent current price, and an empty ensemble column (where the
caught IndexError produces the failure-text hold); a non-positive current
price is not guarded. -/
theorem C5_hold_defaults_amended :
    (∀ p, generate_recommendation none p = ("hold", Explanation.insufficient)) ∧
    (∀ t, generate_recommendation (some t) none = ("hold", Explanation.insufficient)) ∧
    (∀ (t : EnsembleTable) (p : ℚ), t.ensembleCol = [] →
      generate_recommendation (some t) (some p) = ("hold", Explanation.failure)) := by
  refine ⟨fun p => rfl, fun t => rfl, fun t p h => ?_⟩
  simp [generate_recommendation, h]

/-- C5 witness: the empty-column default at price 5. -/
theorem C5_hold_defaults_amended_witness :
    tblEmptyCol.ensembleCol = [] ∧
    generate_recommendation (some tblEmptyCol) (some 5) = ("hold", Explanation.failure) :=
  ⟨rfl, C5_hold_defaults_amended.2.2 tblEmptyCol 5 rfl⟩

/-- C6 counterexample: a successful moderate-buy recommendation whose
rationale does not interpolate the long-horizon return (the claim requires
all three horizon percentages in every successful rationale). -/
theorem C6_counterexample_moderate_buy_omits_long :
    (generate_recommendation (some tblModerateBuy) (some 100)).1 = "buy" ∧
    (generate_recommendation (some tblModerateBuy) (some 100)).2.reportedLong = none := by
  constructor <;>
    norm_num [generate_recommendation, seriesMean, tblModerateBuy, Explanation.reportedLong]

/-- C6 amended: every main-path rationale reports the short and medium
horizon returns and one bullish/bearish signal per surviving model (bullish
exactly when the final-day forecast exceeds current_price); the long-horizon
return is reported by the high-confidence and hold rationales but omitted by
the moderate buy/sell rationales. -/
theorem C6_rationale_content_amended (t : EnsembleTable) (p : ℚ) (_hp : 0 < p)
    (hlen : 14 ≤ t.ensembleCol.length) :
    (generate_recommendation (some t) (some p)).2.reportedShort =
      some ((seriesMean (t.ensembleCol.take 7) - p) / p * 100) ∧
    (generate_recommendation (some t) (some p)).2.reportedMedium =
      some ((seriesMean ((t.ensembleCol.drop 7).take 7) - p) / p * 100) ∧
    (generate_recommendation (some t) (some p)).2.modelSignals =
      t.modelCols.map (fun c => (c.1, decide (c.2.getLastD 0 > p))) ∧
    ((generate_recommendation (some t) (some p)).2.confidenceLevel = some "high" →
      (generate_recommendation (some t) (some p)).2.reportedLong =
        some ((t.ensembleCol.getLastD 0 - p) / p * 100)) ∧
    ((generate_recommendation (some t) (some p)).1 = "hold" →
      (generate_recommendation (some t) (some p)).2.reportedLong =
        some ((t.ensembleCol.getLastD 0 - p) / p * 100)) ∧
    ((generate_recommendation (some t) (some p)).2.confidenceLevel = some "moderate" ∧
        (generate_recommendation (some t) (some p)).1 ≠ "hold" →
      (generate_recommendation (some t) (some p)).2.reportedLong = none) := by
  have hne := isEmpty_false_of_len hlen
  refine ⟨?_, ?_, ?_, ?_, ?_, ?_⟩ <;>
    simp only [generate_recommendation, hne, Bool.false_eq_true, if_false]
  · split_ifs <;> rfl
  · split_ifs <;> rfl
  · split_ifs <;> rfl
  · split_ifs <;> simp [Explanation.confidenceLevel, Explanation.reportedLong]
  · split_ifs <;> simp [Explanation.reportedLong]
  · split_ifs <;> simp [Explanation.confidenceLevel, Explanation.reportedLong]

/-- C6 witness: the amended rationale contract at the moderate-buy table and
price 100. -/
theorem C6_rationale_content_amended_witness :
    (0 : ℚ) < 100 ∧ 14 ≤ tblModerateBuy.ensembleCol.length ∧
    ((generate_recommendation (some tblModerateBuy) (some 100)).2.reportedShort =
      some ((seriesMean (tblModerateBuy.ensembleCol.take 7) - 100) / 100 * 100) ∧
    (generate_recommendation (some tblModerateBuy) (some 100)).2.reportedMedium =
      some ((seriesMean ((tblModerateBuy.ensembleCol.drop 7).take 7) - 100) / 100 * 100) ∧
    (generate_recommendation (some tblModerateBuy) (some 100)).2.modelSignals =
      tblModerateBuy.modelCols.map (fun c => (c.1, decide (c.2.getLastD 0 > 100))) ∧
    ((generate_recommendation (some tblModerateBuy) (some 100)).2.confidenceLevel = some "high" →
      (generate_recommendation (some tblModerateBuy) (some 100)).2.reportedLong =
        some ((tblModerateBuy.ensembleCol.getLastD 0 - 100) / 100 * 100)) ∧
    ((generate_recommendation (some tblModerateBuy) (some 100)).1 = "hold" →
      (generate_recommendation (some tblModerateBuy) (some 100)).2.reportedLong =
        some ((tblModerateBuy.ensembleCol.getLastD 0 - 100) / 100 * 100)) ∧
    ((generate_recommendation (some tblModerateBuy) (some 100)).2.confidenceLevel = some "moderate" ∧
        (generate_recommendation (some tblModerateBuy) (some 100)).1 ≠ "hold" →
      (generate_recommendation (some tblModerateBuy) (some 100)).2.reportedLong = none)) :=
  ⟨by decide, by decide,
   C6_rationale_content_amended tblModerateBuy 100 (by decide) (by decide)⟩

/-- C7: on any accepted (non-empty) price series, the statistical and
seasonal models succeed on successful library fits with a frame of exactly
`n` dates and `n` prices whose i-th date is the last prepared historical
date plus `i + 1` days (consecutive calendar days, no gaps, starting the day
after), and yield no frame at all when the library fit raises. -/
theorem C7_forecast_dates_contiguous (sd : List (ℤ × ℚ)) (f y : ℕ → ℚ) (n : ℕ)
    (df : List (ℤ × ℚ)) (hdf : prepare_data (some sd) = some df) :
    (∃ frame, predict_with_arima (some sd) (some f) n = some frame ∧
      frame.dates.length = n ∧ frame.predicted_price.length = n ∧
      ∀ i, i < n → frame.dates.getD i 0 = (df.map Prod.fst).getLastD 0 + 1 + i) ∧
    (∃ frame, predict_with_prophet (some sd) (some y) n = some frame ∧
      frame.dates.length = n ∧ frame.predicted_price.length = n ∧
      ∀ i, i < n → frame.dates.getD i 0 = (df.map Prod.fst).getLastD 0 + 1 + i) ∧
    predict_with_arima (some sd) none n = none ∧
    predict_with_prophet (some sd) none n = none := by
  have hlen : (make_future_dataframe (df.map Prod.fst) n).length =
      (df.map Prod.fst).length + n := by
    simp only [make_future_dataframe, List.length_append, length_forecast_dates]
  have ha : predict_with_arima (some sd) (some f) n =
      some ⟨forecast_dates ((df.map Prod.fst).getLastD 0) n, (List.range n).map f⟩ := by
    simp only [predict_with_arima, hdf]
  refine ⟨?_, ?_, ?_, ?_⟩
  · refine ⟨_, ha, ?_, ?_, ?_⟩
    · exact length_forecast_dates _ _
    · simp only [List.length_map, List.length_range]
    · intro i hi
      exact forecast_dates_getD _ _ _ hi
  · have hp : predict_with_prophet (some sd) (some y) n =
        some ⟨forecast_dates ((df.map Prod.fst).getLastD 0) n,
          ((List.range ((df.map Prod.fst).length + n)).map y).drop (df.map Prod.fst).length⟩ := by
      simp only [predict_with_prophet, hdf, hlen, Nat.add_sub_cancel]
      rw [make_future_dataframe, List.drop_left]
    refine ⟨_, hp, ?_, ?_, ?_⟩
    · exact length_forecast_dates _ _
    · simp only [List.length_drop, List.length_map, List.length_range,
        Nat.add_sub_cancel_left]
    · intro i hi
      exact forecast_dates_getD _ _ _ hi
  · simp only [predict_with_arima, hdf]
  · simp only [predict_with_prophet, hdf]

/-- C7 witness: a two-row sorted series, three forecast days. -/
theorem C7_forecast_dates_contiguous_witness :
    prepare_data (some rowsTwo) = some rowsTwo ∧
    ((∃ frame, predict_with_arima (some rowsTwo) (some zeroFun) 3 = some frame ∧
      frame.dates.length = 3 ∧ frame.predicted_price.length = 3 ∧
      ∀ i, i < 3 → frame.dates.getD i 0 = (rowsTwo.map Prod.fst).getLastD 0 + 1 + i) ∧
    (∃ frame, predict_with_prophet (some rowsTwo) (some zeroFun) 3 = some frame ∧
      frame.dates.length = 3 ∧ frame.predicted_price.length = 3 ∧
      ∀ i, i < 3 → frame.dates.getD i 0 = (rowsTwo.map Prod.fst).getLastD 0 + 1 + i) ∧
    predict_with_arima (some rowsTwo) none 3 = none ∧
    predict_with_prophet (some rowsTwo) none 3 = none) :=
  ⟨rfl, C7_forecast_dates_contiguous rowsTwo zeroFun zeroFun 3 rowsTwo rfl⟩

/-- C8: generate_recommendation is deterministic: equal inputs give equal
output pairs, hence equal labels, confidence levels, and reported horizon
percentages. -/
theorem C8_recommendation_deterministic (e₁ e₂ : Option EnsembleTable)
    (p₁ p₂ : Option ℚ) (he : e₁ = e₂) (hp : p₁ = p₂) :
    generate_recommendation e₁ p₁ = generate_recommendation e₂ p₂ ∧
    (generate_recommendation e₁ p₁).1 = (generate_recommendation e₂ p₂).1 ∧
    (generate_recommendation e₁ p₁).2.confidenceLevel =
      (generate_recommendation e₂ p₂).2.confidenceLevel ∧
    (generate_recommendation e₁ p₁).2.reportedShort =
      (generate_recommendation e₂ p₂).2.reportedShort ∧
    (generate_recommendation e₁ p₁).2.reportedMedium =
      (generate_recommendation e₂ p₂).2.reportedMedium ∧
    (generate_recommendation e₁ p₁).2.reportedLong =
      (generate_recommendation e₂ p₂).2.reportedLong := by
  subst he
  subst hp
  exact ⟨rfl, rfl, rfl, rfl, rfl, rfl⟩

/-- C8 witness: two identical calls on the buy/high table. -/
theorem C8_recommendation_deterministic_witness :
    (some tblBuyHigh : Option EnsembleTable) = some tblBuyHigh ∧
    (some (100 : ℚ) : Option ℚ) = some 100 ∧
    (generate_recommendation (some tblBuyHigh) (some 100) =
      generate_recommendation (some tblBuyHigh) (some 100) ∧
    (generate_recommendation (some tblBuyHigh) (some 100)).1 =
      (generate_recommendation (some tblBuyHigh) (some 100)).1 ∧
    (generate_recommendation (some tblBuyHigh) (some 100)).2.confidenceLevel =
      (generate_recommendation (some tblBuyHigh) (some 100)).2.confidenceLevel ∧
    (generate_recommendation (some tblBuyHigh) (some 100)).2.reportedShort =
      (generate_recommendation (some tblBuyHigh) (some 100)).2.reportedShort ∧
    (generate_recommendation (some tblBuyHigh) (some 100)).2.reportedMedium =
      (generate_recommendation (some tblBuyHigh) (some 100)).2.reportedMedium ∧
    (generate_recommendation (some tblBuyHigh) (some 100)).2.reportedLong =
      (generate_recommendation (some tblBuyHigh) (some 100)).2.reportedLong) :=
  ⟨rfl, rfl, C8_recommendation_deterministic (some tblBuyHigh) (some tblBuyHigh)
    (some 100) (some 100) rfl rfl⟩

/-- C9: an absent or empty price series makes series preparation fail, every
model return none without computing, and the ensemble fail. -/
theorem C9_empty_series_short_circuits (sd : Option (List (ℤ × ℚ)))
    (fitted yhat : Option (ℕ → ℚ)) (net : ℕ → ℚ) (n : ℕ)
    (h : sd = none ∨ sd = some []) :
    prepare_data sd = none ∧
    predict_with_arima sd fitted n = none ∧
    predict_with_lstm sd net n = none ∧
    predict_with_prophet sd yhat n = none ∧
    ensemble_prediction sd fitted net yhat n = none := by
  have hp : prepare_data sd = none := by rcases h with rfl | rfl <;> rfl
  have ha : predict_with_arima sd fitted n = none := by
    simp only [predict_with_arima, hp]
  have hl : predict_with_lstm sd net n = none := by
    simp only [predict_with_lstm, hp]
  have hpr : predict_with_prophet sd yhat n = none := by
    simp only [predict_with_prophet, hp]
  refine ⟨hp, ha, hl, hpr, ?_⟩
  simp only [ensemble_prediction, ha, hl, hpr, ensemble_combine]
  rfl

/-- C9 witness: the absent-series case. -/
theorem C9_empty_series_short_circuits_witness :
    ((none : Option (List (ℤ × ℚ))) = none ∨ (none : Option (List (ℤ × ℚ))) = some []) ∧
    (prepare_data none = none ∧
    predict_with_arima none (some zeroFun) 30 = none ∧
    predict_with_lstm none zeroFun 30 = none ∧
    predict_with_prophet none (some zeroFun) 30 = none ∧
    ensemble_prediction none (some zeroFun) zeroFun (some zeroFun) 30 = none) :=
  ⟨Or.inl rfl,
   C9_empty_series_short_circuits none (some zeroFun) (some zeroFun) zeroFun 30 (Or.inl rfl)⟩

/-- C10: the sequence model yields no forecast on any series shorter than
look_back + batch_size = 92 rows (zero complete mini-batches make the
per-epoch average divide by zero, and with at most look_back rows the
empty training array fails to reshape, both caught and turned into none),
and any series of at least 92 rows passes both checks, so 92 is the
effective minimum. -/
theorem C10_lstm_minimum_92 (rows : List (ℤ × ℚ)) (net : ℕ → ℚ) (n : ℕ) :
    (rows.length < look_back + batch_size → predict_with_lstm (some rows) net n = none) ∧
    (rows ≠ [] → look_back + batch_size ≤ rows.length →
      (predict_with_lstm (some rows) net n).isSome = true) := by
  have hlb : look_back = 60 := rfl
  have hbs : batch_size = 32 := rfl
  constructor
  · intro hlt
    rw [hlb, hbs] at hlt
    by_cases hemp : rows.isEmpty
    · simp [predict_with_lstm, prepare_data, hemp]
    · simp only [predict_with_lstm, prepare_data, hemp, Bool.false_eq_true, if_false]
      by_cases h60 : rows.length ≤ 60
      · have hz : (sort_index rows).length - look_back = 0 := by
          rw [length_sort_index, hlb]; omega
        simp [hz]
      · have hnz : ¬((sort_index rows).length - look_back = 0) := by
          rw [length_sort_index, hlb]; omega
        have hdiv : ((sort_index rows).length - look_back) / batch_size = 0 := by
          rw [length_sort_index, hlb, hbs]
          exact Nat.div_eq_of_lt (by omega)
        simp [hnz, hdiv]
  · intro hne hge
    rw [hlb, hbs] at hge
    have hemp : rows.isEmpty = false := by
      cases rows with
      | nil => exact absurd rfl hne
      | cons a l => rfl
    simp only [predict_with_lstm, prepare_data, hemp, Bool.false_eq_true, if_false]
    have hnz : ¬((sort_index rows).length - look_back = 0) := by
      rw [length_sort_index, hlb]; omega
    have hbz : ¬(((sort_index rows).length - look_back) / batch_size = 0) := by
      rw [length_sort_index, hlb, hbs]
      intro hc
      rw [Nat.div_eq_zero_iff (by norm_num)] at hc
      omega
    simp [hnz, hbz]

/-- C10 witness: a five-row series fails, a ninety-two-row series passes. -/
theorem C10_lstm_minimum_92_witness :
    (rowsFive.length < look_back + batch_size ∧
      predict_with_lstm (some rowsFive) zeroFun 30 = none) ∧
    (rowsNinetyTwo ≠ [] ∧ look_back + batch_size ≤ rowsNinetyTwo.length ∧
      (predict_with_lstm (some rowsNinetyTwo) zeroFun 30).isSome = true) :=
  ⟨⟨by decide, (C10_lstm_minimum_92 rowsFive zeroFun 30).1 (by decide)⟩,
   ⟨by decide, by decide,
    (C10_lstm_minimum_92 rowsNinetyTwo zeroFun 30).2 (by decide) (by decide)⟩⟩

end StockApp
